import Mathlib

/-!
Verification of the `homebridge-airgradient` plugin (`src/index.ts`).

The development shallowly embeds the `AirQualitySensor` class:
* `transformAirQuality` — the pure air-quality classifier (lines 166-201),
  with JS numbers modelled as exact rationals;
* `DeviceState` / `pollAirGradient` / `updateCharacteristics` — the
  monitor's mutable fields and the poll-tick transition (lines 80-139);
* the five `handle*Get` accessors (lines 158-233);
* `discoveryStep` / `discoveryRun` — the Bonjour discovery handler and the
  one-shot not-found timeout (lines 61-78), as a transition system over
  advertisement/timeout events.
-/

namespace AirGradient

/-- Classifier from `src/index.ts` lines 166-201 (`transformAirQuality`).
The JS `let rank` mutation is threaded through shadowing `let`s; each
`return 5` becomes an early `if ... then 5 else`. -/
def transformAirQuality (pm2_5 pm10 co2 : ℚ) : ℕ :=
  let rank : ℕ := 1
  -- Rank for PM2.5 (µg/m3)
  if pm2_5 > 100 then 5 else
  let rank := if pm2_5 > 554/10 then max rank 4
              else if pm2_5 > 354/10 then max rank 3
              else if pm2_5 > 12 then max rank 2
              else rank
  -- Rank for PM10 (µg/m3)
  if pm10 > 354 then 5 else
  let rank := if pm10 > 254 then max rank 4
              else if pm10 > 154 then max rank 3
              else if pm10 > 54 then max rank 2
              else rank
  -- Rank for CO2 (ppm)
  if co2 > 2000 then 5 else
  let rank := if co2 > 1000 then max rank 3
              else if co2 > 500 then max rank 2
              else rank
  rank

/-- Spec-side per-scale rank for PM2.5 (breakpoint table of spec §4.1). -/
def rankPm25 (x : ℚ) : ℕ :=
  if x > 554/10 then 4 else if x > 354/10 then 3 else if x > 12 then 2 else 1

/-- Spec-side per-scale rank for PM10 (breakpoint table of spec §4.1). -/
def rankPm10 (x : ℚ) : ℕ :=
  if x > 254 then 4 else if x > 154 then 3 else if x > 54 then 2 else 1

/-- Spec-side per-scale rank for CO2 (breakpoint table of spec §4.1: no
rank-4 band). -/
def rankCo2 (x : ℚ) : ℕ :=
  if x > 1000 then 3 else if x > 500 then 2 else 1

/-- Spec-side classifier: 5 whenever some scale exceeds its top breakpoint,
otherwise the maximum of the three per-scale ranks (spec §4.1). -/
def classifySpec (pm2_5 pm10 co2 : ℚ) : ℕ :=
  if pm2_5 > 100 then 5
  else if pm10 > 354 then 5
  else if co2 > 2000 then 5
  else max (max (rankPm25 pm2_5) (rankPm10 pm10)) (rankCo2 co2)

set_option maxHeartbeats 1000000 in
/-- The code's classifier coincides with the spec-side one everywhere. -/
lemma transformAirQuality_eq_spec (a b c : ℚ) :
    transformAirQuality a b c = classifySpec a b c := by
  unfold transformAirQuality classifySpec rankPm25 rankPm10 rankCo2
  split_ifs <;> rfl

lemma rankPm25_mono {x y : ℚ} (h : x ≤ y) : rankPm25 x ≤ rankPm25 y := by
  unfold rankPm25
  split_ifs <;> first | decide | linarith

lemma rankPm10_mono {x y : ℚ} (h : x ≤ y) : rankPm10 x ≤ rankPm10 y := by
  unfold rankPm10
  split_ifs <;> first | decide | linarith

lemma rankCo2_mono {x y : ℚ} (h : x ≤ y) : rankCo2 x ≤ rankCo2 y := by
  unfold rankCo2
  split_ifs <;> first | decide | linarith

lemma rankMax_le_five (a b c : ℚ) :
    max (max (rankPm25 a) (rankPm10 b)) (rankCo2 c) ≤ 5 := by
  unfold rankPm25 rankPm10 rankCo2
  split_ifs <;> decide

lemma classifySpec_mono_pm25 {a a' : ℚ} (b c : ℚ) (h : a ≤ a') :
    classifySpec a b c ≤ classifySpec a' b c := by
  unfold classifySpec
  split_ifs <;>
    first
    | rfl
    | linarith
    | exact rankMax_le_five a b c
    | exact max_le_max (max_le_max (rankPm25_mono h) le_rfl) le_rfl

lemma classifySpec_mono_pm10 {b b' : ℚ} (a c : ℚ) (h : b ≤ b') :
    classifySpec a b c ≤ classifySpec a b' c := by
  unfold classifySpec
  split_ifs <;>
    first
    | rfl
    | linarith
    | exact rankMax_le_five a b c
    | exact max_le_max (max_le_max le_rfl (rankPm10_mono h)) le_rfl

lemma classifySpec_mono_co2 {c c' : ℚ} (a b : ℚ) (h : c ≤ c') :
    classifySpec a b c ≤ classifySpec a b c' := by
  unfold classifySpec
  split_ifs <;>
    first
    | rfl
    | linarith
    | exact rankMax_le_five a b c
    | exact max_le_max le_rfl (rankCo2_mono h)

end AirGradient

namespace AirGradient

/-- C1: for all non-negative inputs the classifier equals the maximum of the
three per-scale breakpoint ranks, except that exceeding any top breakpoint
(pm25 > 100, pm10 > 354, co2 > 2000) forces 5; in particular
`classify(101,0,0) = 5`, `classify(0,355,0) = 5`, `classify(0,0,2001) = 5`
and `classify(56,160,600) = 4`. -/
theorem classify_matches_breakpoint_spec :
    (∀ a b c : ℚ, 0 ≤ a → 0 ≤ b → 0 ≤ c →
      transformAirQuality a b c = classifySpec a b c) ∧
    transformAirQuality 101 0 0 = 5 ∧
    transformAirQuality 0 355 0 = 5 ∧
    transformAirQuality 0 0 2001 = 5 ∧
    transformAirQuality 56 160 600 = 4 := by
  refine ⟨fun a b c _ _ _ => transformAirQuality_eq_spec a b c, ?_, ?_, ?_, ?_⟩ <;>
    norm_num [transformAirQuality]

/-- Witness for C1 at the concrete input (7, 0, 0). -/
theorem classify_matches_breakpoint_spec_witness :
    transformAirQuality 7 0 0 = classifySpec 7 0 0 :=
  classify_matches_breakpoint_spec.1 7 0 0 (by norm_num) (by norm_num) (by norm_num)

/-- C2 counterexample: the claimed `classify(0,0,999) = 1` is false — the
code ranks co2 = 999 in the `co2 > 500` band, giving rank 2. -/
theorem classify_999_not_one : ¬ transformAirQuality 0 0 999 = 1 := by
  norm_num [transformAirQuality]

/-- C2 (amended): `classify(13,0,0) = 2`, `classify(0,0,1500) = 3`,
`classify(0,0,999) = 2` (999 exceeds the 500 ppm breakpoint), and CO2
exactly at the 1000 ppm threshold does not trigger rank 3 (strict `>`):
`classify(0,0,1000) = 2`. -/
theorem classify_boundary_values :
    transformAirQuality 13 0 0 = 2 ∧
    transformAirQuality 0 0 1500 = 3 ∧
    transformAirQuality 0 0 999 = 2 ∧
    transformAirQuality 0 0 1000 = 2 := by
  refine ⟨?_, ?_, ?_, ?_⟩ <;> norm_num [transformAirQuality]

set_option maxHeartbeats 1000000 in
/-- C8: for all non-negative inputs the classifier (a total, deterministic
Lean function by construction) returns a value in {1,2,3,4,5}. -/
theorem classify_total_range :
    ∀ a b c : ℚ, 0 ≤ a → 0 ≤ b → 0 ≤ c →
      transformAirQuality a b c ∈ ({1, 2, 3, 4, 5} : Finset ℕ) := by
  intro a b c _ _ _
  unfold transformAirQuality
  split_ifs <;> decide

/-- Witness for C8 at the concrete input (60, 200, 700). -/
theorem classify_total_range_witness :
    transformAirQuality 60 200 700 ∈ ({1, 2, 3, 4, 5} : Finset ℕ) :=
  classify_total_range 60 200 700 (by norm_num) (by norm_num) (by norm_num)

/-- C9: the classifier is monotone in each argument separately: raising one
input while fixing the other two never decreases the rank. -/
theorem classify_monotone_each_arg :
    (∀ a a' b c : ℚ, a ≤ a' →
      transformAirQuality a b c ≤ transformAirQuality a' b c) ∧
    (∀ a b b' c : ℚ, b ≤ b' →
      transformAirQuality a b c ≤ transformAirQuality a b' c) ∧
    (∀ a b c c' : ℚ, c ≤ c' →
      transformAirQuality a b c ≤ transformAirQuality a b c') := by
  refine ⟨fun a a' b c h => ?_, fun a b b' c h => ?_, fun a b c c' h => ?_⟩ <;>
    rw [transformAirQuality_eq_spec, transformAirQuality_eq_spec]
  · exact classifySpec_mono_pm25 b c h
  · exact classifySpec_mono_pm10 a c h
  · exact classifySpec_mono_co2 a b h

/-- Witness for C9 at concrete inputs (10 ≤ 40 in the PM2.5 slot). -/
theorem classify_monotone_each_arg_witness :
    transformAirQuality 10 0 0 ≤ transformAirQuality 40 0 0 :=
  classify_monotone_each_arg.1 10 40 0 0 (by norm_num)

end AirGradient

namespace AirGradient

/-- One telemetry snapshot (`AirGradientData`, `src/index.ts` lines 8-26),
JS numbers modelled as rationals. -/
structure Reading where
  boot : ℚ
  wifi : ℚ
  serialno : String
  rco2 : ℚ
  pm01 : ℚ
  pm02 : ℚ
  pm10 : ℚ
  pm003Count : ℚ
  atmp : ℚ
  rhum : ℚ
  tvocIndex : ℚ
  tvoc_raw : ℚ
  noxIndex : ℚ
  nox_raw : ℚ
  ledMode : String
  firmwareVersion : String
  fwMode : String
deriving DecidableEq

/-- The monitor's mutable fields (`AirQualitySensor` lines 29-35) together
with the HAP characteristic value cells written by `updateValue` and read
back by the `handle*Get` accessors: `airQuality` is the stored rank, the
four density/level/temperature cells are the stored latest reading, and
`infoFirmwareRevision` / `infoModel` are the AccessoryInformation
characteristics set by `updateInfo`. -/
structure DeviceState where
  deviceUrl : Option String := none
  firmwareVersion : Option String := none
  isConnected : Bool := false
  airQuality : Option ℕ := none
  pm25Density : Option ℚ := none
  pm10Density : Option ℚ := none
  co2Level : Option ℚ := none
  temperature : Option ℚ := none
  infoFirmwareRevision : Option String := none
  infoModel : Option String := none
deriving DecidableEq

/-- `DeviceState` right after construction (line 56: `isConnected = false`,
nothing stored yet). -/
def initialDeviceState : DeviceState := {}

/-- `updateInfo` (lines 91-97): stores the firmware version and sets the
FirmwareRevision and Model characteristics. -/
def updateInfo (s : DeviceState) (data : Reading) : DeviceState :=
  { s with
    firmwareVersion := some data.firmwareVersion,
    infoFirmwareRevision := some data.firmwareVersion,
    infoModel := some data.fwMode }

/-- `updateCharacteristics` (lines 99-139): returns early when
`data.boot === 0`; otherwise refreshes device info when the firmware
version changed, then stores rank, PM2.5, PM10, CO2 and temperature. -/
def updateCharacteristics (s : DeviceState) (data : Reading) : DeviceState :=
  if data.boot = 0 then s
  else
    let s := if some data.firmwareVersion ≠ s.firmwareVersion then updateInfo s data else s
    { s with
      airQuality := some (transformAirQuality data.pm02 data.pm10 data.rco2),
      pm25Density := some data.pm02,
      pm10Density := some data.pm10,
      co2Level := some data.rco2,
      temperature := some data.atmp }

/-- Outcome of one `axios.get` fetch, with the two spec error kinds; both
reach the same `catch` block in `pollAirGradient`. -/
inductive FetchResult where
  | success (data : Reading)
  | transportError
  | malformedResponseError
deriving DecidableEq

/-- One poll tick (`pollAirGradient`, lines 80-89): on success run
`updateCharacteristics` then set `isConnected = true`; on any caught error
set `isConnected = false` and touch nothing else. -/
def pollAirGradient (s : DeviceState) (result : FetchResult) : DeviceState :=
  match result with
  | .success data =>
      let s := updateCharacteristics s data
      { s with isConnected := true }
  | .transportError => { s with isConnected := false }
  | .malformedResponseError => { s with isConnected := false }

/-- Result of a characteristic `onGet` handler: the stored value, or the
thrown `HapStatusError(SERVICE_COMMUNICATION_FAILURE)`. -/
inductive GetResult (α : Type) where
  | ok (value : α)
  | serviceCommunicationFailure
deriving DecidableEq

/-- `handleAirQualityGet` (lines 158-164). -/
def handleAirQualityGet (s : DeviceState) : GetResult (Option ℕ) :=
  if s.isConnected then .ok s.airQuality else .serviceCommunicationFailure

/-- `handleCarbonDioxideLevelGet` (lines 203-209). -/
def handleCarbonDioxideLevelGet (s : DeviceState) : GetResult (Option ℚ) :=
  if s.isConnected then .ok s.co2Level else .serviceCommunicationFailure

/-- `handlePM25Get` (lines 211-217). -/
def handlePM25Get (s : DeviceState) : GetResult (Option ℚ) :=
  if s.isConnected then .ok s.pm25Density else .serviceCommunicationFailure

/-- `handlePM10Get` (lines 219-225). -/
def handlePM10Get (s : DeviceState) : GetResult (Option ℚ) :=
  if s.isConnected then .ok s.pm10Density else .serviceCommunicationFailure

/-- `handleTemperatureGet` (lines 227-233). -/
def handleTemperatureGet (s : DeviceState) : GetResult (Option ℚ) :=
  if s.isConnected then .ok s.temperature else .serviceCommunicationFailure

lemma pollAirGradient_success_boot_zero (s : DeviceState) (data : Reading)
    (h : data.boot = 0) :
    pollAirGradient s (.success data) = { s with isConnected := true } := by
  simp [pollAirGradient, updateCharacteristics, h]

end AirGradient

namespace AirGradient

/-- Does the character list start with the pattern? (helper for the JS
`String.prototype.includes` used on line 65). -/
def charsStartWith : List Char → List Char → Bool
  | _, [] => true
  | [], _ :: _ => false
  | a :: as, b :: bs => a == b && charsStartWith as bs

/-- Substring containment on character lists. -/
def charsContain : List Char → List Char → Bool
  | [], pat => charsStartWith [] pat
  | a :: rest, pat => charsStartWith (a :: rest) pat || charsContain rest pat

/-- JS `s.includes(pat)`: substring containment. -/
def strIncludes (s pat : String) : Bool :=
  charsContain s.data pat.data

/-- One advertised Bonjour service instance (fields used on lines 65-66). -/
structure BonjourService where
  name : String
  host : String
  port : ℕ
deriving DecidableEq

/-- The two event kinds reaching `discoverDevice`'s callbacks: a browser
`'up'` advertisement (line 64) and the one-shot 5-second not-found check
(lines 73-77). -/
inductive DiscoveryEvent where
  | up (service : BonjourService)
  | notFoundCheck
deriving DecidableEq

/-- Observable discovery state: the resolved `deviceUrl`, how many poll
loops (`setInterval` registrations, line 69) have been started, and how
many "No device found" errors (line 75) have been logged. -/
structure DiscoveryState where
  deviceUrl : Option String := none
  pollLoopsStarted : ℕ := 0
  notFoundReports : ℕ := 0
deriving DecidableEq

/-- Discovery state at construction time. -/
def initialDiscoveryState : DiscoveryState := {}

/-- Line 65: `service.name.includes('airgradient_' + serialNumber)`. -/
def serviceMatches (serialNumber : String) (service : BonjourService) : Bool :=
  strIncludes service.name ("airgradient_" ++ serialNumber)

/-- One discovery event (`discoverDevice`, lines 61-78): every matching
`'up'` advertisement re-resolves the URL and starts another poll interval;
the one-shot timeout logs "No device found" iff no URL is resolved yet. -/
def discoveryStep (serialNumber : String) (s : DiscoveryState) :
    DiscoveryEvent → DiscoveryState
  | .up service =>
      if serviceMatches serialNumber service then
        { s with
          deviceUrl := some ("http://" ++ service.host ++ ":" ++ toString service.port),
          pollLoopsStarted := s.pollLoopsStarted + 1 }
      else s
  | .notFoundCheck =>
      if s.deviceUrl = none then
        { s with notFoundReports := s.notFoundReports + 1 }
      else s

/-- Processing a sequence of discovery events in order. -/
def discoveryRun (serialNumber : String) : DiscoveryState → List DiscoveryEvent → DiscoveryState :=
  List.foldl (discoveryStep serialNumber)

/-- An event that leaves the discovery state unchanged: a non-matching
advertisement. (`notFoundCheck` is excluded: the 5-second timer is
scheduled once, so sequences around it contain no further check.) -/
def eventQuiet (serialNumber : String) : DiscoveryEvent → Bool
  | .up service => !(serviceMatches serialNumber service)
  | .notFoundCheck => false

/-- All events in the list are quiet. -/
def quietEvents (serialNumber : String) (events : List DiscoveryEvent) : Prop :=
  ∀ e ∈ events, eventQuiet serialNumber e = true

instance (serialNumber : String) (events : List DiscoveryEvent) :
    Decidable (quietEvents serialNumber events) :=
  List.decidableBAll _ events

lemma discoveryStep_quiet (serialNumber : String) (s : DiscoveryState)
    {e : DiscoveryEvent} (h : eventQuiet serialNumber e = true) :
    discoveryStep serialNumber s e = s := by
  cases e with
  | up service =>
      have h' : serviceMatches serialNumber service = false := by
        simpa [eventQuiet] using h
      simp [discoveryStep, h']
  | notFoundCheck => simp [eventQuiet] at h

lemma discoveryRun_quiet (serialNumber : String) (s : DiscoveryState)
    {events : List DiscoveryEvent} (h : quietEvents serialNumber events) :
    discoveryRun serialNumber s events = s := by
  induction events generalizing s with
  | nil => rfl
  | cons e rest ih =>
      have he : eventQuiet serialNumber e = true := h e (List.mem_cons_self e rest)
      have hrest : quietEvents serialNumber rest := fun x hx => h x (List.mem_cons_of_mem e hx)
      simp only [discoveryRun, List.foldl_cons]
      rw [discoveryStep_quiet serialNumber s he]
      exact ih s hrest

lemma discoveryRun_append (serialNumber : String) (s : DiscoveryState)
    (xs ys : List DiscoveryEvent) :
    discoveryRun serialNumber s (xs ++ ys)
      = discoveryRun serialNumber (discoveryRun serialNumber s xs) ys := by
  simp [discoveryRun, List.foldl_append]

end AirGradient

namespace AirGradient

/-- A concrete still-booting reading (`boot = 0`). -/
def bootingReading : Reading :=
  { boot := 0, wifi := 2, serialno := "84fce612eff4", rco2 := 0, pm01 := 0, pm02 := 0,
    pm10 := 0, pm003Count := 0, atmp := 0, rhum := 0, tvocIndex := 0, tvoc_raw := 0,
    noxIndex := 0, nox_raw := 0, ledMode := "co2", firmwareVersion := "3.1.1",
    fwMode := "I-9PSL" }

/-- A concrete connected state with stored measurements. -/
def sampleConnectedState : DeviceState :=
  { isConnected := true, airQuality := some 2, pm25Density := some 13,
    pm10Density := some 20, co2Level := some 600, temperature := some 21,
    firmwareVersion := some "3.1.1" }

/-- C3 counterexample: a successful fetch whose reading has `boot = 0` is
not a complete no-op — starting disconnected, the poll tick flips
`isConnected` to `true` (line 85 runs unconditionally after the early
return in `updateCharacteristics`). -/
theorem boot_zero_not_full_noop :
    ¬ pollAirGradient initialDeviceState (.success bootingReading) = initialDeviceState := by
  intro h
  have h' := congrArg DeviceState.isConnected h
  rw [show (pollAirGradient initialDeviceState (.success bootingReading)).isConnected = true
        from rfl,
      show initialDeviceState.isConnected = false from rfl] at h'
  exact Bool.noConfusion h'

/-- C3 (amended): a successful fetch with `boot = 0` leaves every stored
field (readings, rank, firmware info, URL) unchanged but sets
`isConnected := true`; it is a complete no-op only when already
connected. -/
theorem boot_zero_preserves_all_but_connected (s : DeviceState) (data : Reading)
    (h : data.boot = 0) :
    pollAirGradient s (.success data) = { s with isConnected := true } :=
  pollAirGradient_success_boot_zero s data h

/-- Witness for amended C3 at the initial state and a concrete booting
reading. -/
theorem boot_zero_preserves_all_but_connected_witness :
    pollAirGradient initialDeviceState (.success bootingReading)
      = { initialDeviceState with isConnected := true } :=
  boot_zero_preserves_all_but_connected initialDeviceState bootingReading rfl

/-- C4: each of the five accessors returns the stored value when
`isConnected = true` and fails with the communication-failure condition
when `isConnected = false`. -/
theorem accessor_reads_gated_on_connected (s : DeviceState) :
    (s.isConnected = true →
      handleAirQualityGet s = .ok s.airQuality ∧
      handlePM25Get s = .ok s.pm25Density ∧
      handlePM10Get s = .ok s.pm10Density ∧
      handleCarbonDioxideLevelGet s = .ok s.co2Level ∧
      handleTemperatureGet s = .ok s.temperature) ∧
    (s.isConnected = false →
      handleAirQualityGet s = .serviceCommunicationFailure ∧
      handlePM25Get s = .serviceCommunicationFailure ∧
      handlePM10Get s = .serviceCommunicationFailure ∧
      handleCarbonDioxideLevelGet s = .serviceCommunicationFailure ∧
      handleTemperatureGet s = .serviceCommunicationFailure) := by
  constructor <;> intro h <;>
    simp [handleAirQualityGet, handlePM25Get, handlePM10Get,
          handleCarbonDioxideLevelGet, handleTemperatureGet, h]

/-- Witness for C4 at a concrete connected state. -/
theorem accessor_reads_gated_on_connected_witness :
    handleAirQualityGet sampleConnectedState = .ok sampleConnectedState.airQuality ∧
    handlePM25Get sampleConnectedState = .ok sampleConnectedState.pm25Density ∧
    handlePM10Get sampleConnectedState = .ok sampleConnectedState.pm10Density ∧
    handleCarbonDioxideLevelGet sampleConnectedState = .ok sampleConnectedState.co2Level ∧
    handleTemperatureGet sampleConnectedState = .ok sampleConnectedState.temperature :=
  (accessor_reads_gated_on_connected sampleConnectedState).1 rfl

/-- C5: a failed fetch of either error kind sets `isConnected := false` and
changes nothing else — stored readings and rank are retained; the error is
absorbed by the poll tick (the transition is a total function). -/
theorem fetch_failure_disconnects_retains_state (s : DeviceState) (e : FetchResult)
    (h : e = .transportError ∨ e = .malformedResponseError) :
    pollAirGradient s e = { s with isConnected := false } := by
  rcases h with h | h <;> subst h <;> rfl

/-- Witness for C5: a transport error at a concrete connected state. -/
theorem fetch_failure_disconnects_retains_state_witness :
    pollAirGradient sampleConnectedState .transportError
      = { sampleConnectedState with isConnected := false } :=
  fetch_failure_disconnects_retains_state sampleConnectedState .transportError (Or.inl rfl)

/-- C10: every successful fetch sets `isConnected = true`, including when
the reading has `boot = 0`; hence after a booting reading received while
disconnected, all five accessors succeed and return the previously stored
values. -/
theorem success_always_connects (s : DeviceState) (data : Reading) :
    (pollAirGradient s (.success data)).isConnected = true ∧
    (data.boot = 0 →
      handleAirQualityGet (pollAirGradient s (.success data)) = .ok s.airQuality ∧
      handlePM25Get (pollAirGradient s (.success data)) = .ok s.pm25Density ∧
      handlePM10Get (pollAirGradient s (.success data)) = .ok s.pm10Density ∧
      handleCarbonDioxideLevelGet (pollAirGradient s (.success data)) = .ok s.co2Level ∧
      handleTemperatureGet (pollAirGradient s (.success data)) = .ok s.temperature) := by
  refine ⟨rfl, fun h => ?_⟩
  rw [pollAirGradient_success_boot_zero s data h]
  simp [handleAirQualityGet, handlePM25Get, handlePM10Get,
        handleCarbonDioxideLevelGet, handleTemperatureGet]

/-- Witness for C10 at the (disconnected) initial state and a concrete
booting reading. -/
theorem success_always_connects_witness :
    (pollAirGradient initialDeviceState (.success bootingReading)).isConnected = true ∧
    handleAirQualityGet (pollAirGradient initialDeviceState (.success bootingReading))
      = .ok initialDeviceState.airQuality :=
  ⟨(success_always_connects initialDeviceState bootingReading).1,
   ((success_always_connects initialDeviceState bootingReading).2 rfl).1⟩

/-- A service advertisement matching serial number "x1". -/
def matchedService : BonjourService :=
  { name := "airgradient_x1", host := "airgradient_x1.local", port := 80 }

/-- A service advertisement matching no AirGradient serial number. -/
def unrelatedService : BonjourService :=
  { name := "printer_17", host := "printer_17.local", port := 631 }

/-- C6 counterexample: two matching advertisements start two poll loops —
the `'up'` handler has no first-match guard, so the second advertisement is
not ignored and `pollLoopsStarted` is 2, not 1. -/
theorem repeat_advertisement_counterexample :
    (discoveryRun "x1" initialDiscoveryState
        [.up matchedService, .up matchedService]).pollLoopsStarted = 2 ∧
    ¬ (discoveryRun "x1" initialDiscoveryState
        [.up matchedService, .up matchedService]).pollLoopsStarted = 1 := by
  decide

/-- C6 (amended): every matching advertisement — first or later — resolves
the address again and starts one more poll loop; the handler never stops
matching. -/
theorem matching_advertisement_always_restarts (serialNumber : String)
    (s : DiscoveryState) (service : BonjourService)
    (h : serviceMatches serialNumber service = true) :
    discoveryStep serialNumber s (.up service)
      = { s with
          deviceUrl := some ("http://" ++ service.host ++ ":" ++ toString service.port),
          pollLoopsStarted := s.pollLoopsStarted + 1 } := by
  simp [discoveryStep, h]

/-- Witness for amended C6 at a concrete matching service. -/
theorem matching_advertisement_always_restarts_witness :
    discoveryStep "x1" initialDiscoveryState (.up matchedService)
      = { initialDiscoveryState with
          deviceUrl := some ("http://" ++ matchedService.host ++ ":"
            ++ toString matchedService.port),
          pollLoopsStarted := initialDiscoveryState.pollLoopsStarted + 1 } :=
  matching_advertisement_always_restarts "x1" initialDiscoveryState matchedService (by decide)

/-- C7: with no matching advertisement before the one-shot timeout, exactly
one "device not found" report is made, the monitor is still discovering
(no URL, no poll loop), and a matching advertisement arriving any time
after the timeout still resolves the address and starts the poll loop. -/
theorem timeout_advisory_late_match_still_connects (serialNumber : String)
    (pre mid : List DiscoveryEvent) (service : BonjourService)
    (hpre : quietEvents serialNumber pre) (hmid : quietEvents serialNumber mid)
    (hmatch : serviceMatches serialNumber service = true) :
    (discoveryRun serialNumber initialDiscoveryState
        (pre ++ [.notFoundCheck])).notFoundReports = 1 ∧
    (discoveryRun serialNumber initialDiscoveryState
        (pre ++ [.notFoundCheck])).deviceUrl = none ∧
    (discoveryRun serialNumber initialDiscoveryState
        (pre ++ [.notFoundCheck])).pollLoopsStarted = 0 ∧
    (discoveryRun serialNumber initialDiscoveryState
        (pre ++ [.notFoundCheck] ++ mid ++ [.up service])).deviceUrl
      = some ("http://" ++ service.host ++ ":" ++ toString service.port) ∧
    (discoveryRun serialNumber initialDiscoveryState
        (pre ++ [.notFoundCheck] ++ mid ++ [.up service])).pollLoopsStarted = 1 := by
  have hq : discoveryRun serialNumber initialDiscoveryState pre = initialDiscoveryState :=
    discoveryRun_quiet _ _ hpre
  have h1 : discoveryRun serialNumber initialDiscoveryState (pre ++ [.notFoundCheck])
      = { initialDiscoveryState with notFoundReports := 1 } := by
    rw [discoveryRun_append, hq]; rfl
  have h2 : discoveryRun serialNumber initialDiscoveryState
      (pre ++ [.notFoundCheck] ++ mid ++ [.up service])
      = discoveryStep serialNumber { initialDiscoveryState with notFoundReports := 1 }
          (.up service) := by
    rw [discoveryRun_append, discoveryRun_append, h1, discoveryRun_quiet _ _ hmid]; rfl
  refine ⟨by rw [h1]; try rfl, by rw [h1]; try rfl, by rw [h1]; try rfl, ?_, ?_⟩ <;>
    rw [h2] <;> simp [discoveryStep, hmatch, initialDiscoveryState]

/-- Witness for C7: one unrelated advertisement, then the timeout, then the
matching advertisement. -/
theorem timeout_advisory_late_match_still_connects_witness :
    (discoveryRun "x1" initialDiscoveryState
        ([DiscoveryEvent.up unrelatedService] ++ [.notFoundCheck])).notFoundReports = 1 ∧
    (discoveryRun "x1" initialDiscoveryState
        ([DiscoveryEvent.up unrelatedService] ++ [.notFoundCheck])).deviceUrl = none ∧
    (discoveryRun "x1" initialDiscoveryState
        ([DiscoveryEvent.up unrelatedService] ++ [.notFoundCheck])).pollLoopsStarted = 0 ∧
    (discoveryRun "x1" initialDiscoveryState
        ([DiscoveryEvent.up unrelatedService] ++ [.notFoundCheck] ++ []
          ++ [.up matchedService])).deviceUrl
      = some ("http://" ++ matchedService.host ++ ":" ++ toString matchedService.port) ∧
    (discoveryRun "x1" initialDiscoveryState
        ([DiscoveryEvent.up unrelatedService] ++ [.notFoundCheck] ++ []
          ++ [.up matchedService])).pollLoopsStarted = 1 :=
  timeout_advisory_late_match_still_connects "x1" [.up unrelatedService] [] matchedService
    (by decide) (by decide) (by decide)

end AirGradient
